import Mathlib

/-!
Shallow embedding of `src/chaos_kitten/paws/executor.py` (the `Executor`
class: construction, scoped lifecycle, header building, and
`execute_attack` with its rate-limit delay, retry loop and result
normalization).

Modelling conventions:
* Python `dict[str, str]` values become association lists
  `List (String × String)`; an attack payload `dict[str, Any]` is likewise
  modelled as an association list (its contents are never inspected by the
  executor, only its placement matters).
* The httpx `AsyncClient` is modelled by `Client`, carrying the
  construction arguments, a `closed` flag and a counter of `aclose` calls.
* The network environment is an oracle `net : Nat → NetOutcome` giving,
  for each attempt index, either an HTTP response (any status code, with
  the per-attempt elapsed milliseconds measured from the fresh
  `time.monotonic()` timestamp taken at that attempt's start) or an
  `httpx.RequestError` with its message and per-attempt elapsed time.
* `await asyncio.sleep` calls and dispatched requests are recorded in an
  event trace `List Event`; exceptions escaping the function are the
  `PyResult.raised` constructor carrying the `RuntimeError` message.
* A call on a closed httpx client raises `RuntimeError` (not an
  `httpx.RequestError`), before any network I/O; `Client.closed` drives
  that branch.
-/

abbrev Headers := List (String × String)

abbrev Payload := List (String × String)

/-- Outcome of one `self._client.request(...)` call on an open client:
either an HTTP response (any status code) or a network-level failure
(`httpx.RequestError`). `elapsedMs` is the per-attempt duration measured
from the timestamp taken at the start of that attempt. -/
inductive NetOutcome where
  | response (status : Nat) (body : String) (headers : Headers)
      (url : String) (elapsedMs : Nat)
  | netError (msg : String) (elapsedMs : Nat)
deriving DecidableEq

/-- Model of the httpx `AsyncClient` created in `__aenter__`. -/
structure Client where
  base_url : String
  timeout : Int
  headers : Headers
  closed : Bool
  closeCount : Nat
deriving DecidableEq

/-- Model of the `Executor` object: its constructor fields plus the
`_client` attribute (`None` before scope entry). -/
structure Executor where
  base_url : String
  auth_type : String
  auth_token : Option String
  rate_limit : Int
  timeout : Int
  client : Option Client
deriving DecidableEq

/-- The `kwargs` dict passed to `self._client.request(method, url, **kwargs)`:
a key is absent (`none`) when the corresponding Python key was never set. -/
structure RequestKwargs where
  headers : Option Headers := none
  json : Option Payload := none
  params : Option Payload := none
deriving DecidableEq

/-- Observable effect of the coroutine: an `asyncio.sleep` of a duration in
seconds, or a request actually dispatched to the network. -/
inductive Event where
  | sleep (seconds : ℚ)
  | request (attempt : Nat) (method url : String) (kwargs : RequestKwargs)
deriving DecidableEq

/-- Return-or-raise outcome of a Python call: `ok` with the returned value,
or `raised` with the `RuntimeError` message. -/
inductive PyResult (α : Type) where
  | ok (val : α)
  | raised (msg : String)
deriving DecidableEq

/-- The result dict built by `execute_attack`; `headers` and `error` are
`none` when the corresponding key is absent from the Python dict. -/
structure AttackResult where
  status_code : Nat
  response_body : String
  elapsed_ms : Nat
  headers : Option Headers
  url : String
  error : Option String
deriving DecidableEq

/-- The value `execute_attack` returns when its `for` loop exits: `some`
result dict, or `none` for Python's implicit `return None` were the loop
ever to fall through. -/
abbrev ExecOutcome := PyResult (Option AttackResult)

/-- Python `str.lstrip("/")` on a string modelled as its character
sequence: drops every leading slash. -/
def pyLstripSlash (s : String) : String := ⟨s.data.dropWhile (· == '/')⟩

/-- Python `str.rstrip("/")`: drops every trailing slash. -/
def pyRstripSlash (s : String) : String := ⟨(s.data.reverse.dropWhile (· == '/')).reverse⟩

/-- Python `str.upper()` on the character sequence. -/
def pyUpper (s : String) : String := ⟨s.data.map Char.toUpper⟩

/-- Python truthiness of the `auth_token : Optional[str]` field. -/
def tokenSet : Option String → Bool
  | none => false
  | some t => t ≠ ""

/-- Python truthiness of the per-request `headers` argument (`if headers:`):
an absent mapping and an empty mapping are both falsy. -/
def headersTruthy : Option Headers → Bool
  | none => false
  | some h => !h.isEmpty

/-- Constructor `Executor.__init__`: stores the config with trailing
slashes stripped from `base_url`, and sets `_client = None`. -/
def Executor.make (base_url auth_type : String) (auth_token : Option String)
    (rate_limit timeout : Int) : Executor :=
  { base_url := pyRstripSlash base_url
    auth_type := auth_type
    auth_token := auth_token
    rate_limit := rate_limit
    timeout := timeout
    client := none }

/-- `Executor._build_headers`: fixed `User-Agent`, plus an `Authorization`
header depending on `auth_type` and the truthiness of `auth_token`. -/
def Executor.build_headers (ex : Executor) : Headers :=
  let headers : Headers := [("User-Agent", "ChaosKitten/0.1.0")]
  if (ex.auth_type == "bearer" || ex.auth_type == "oauth") && tokenSet ex.auth_token then
    headers ++ [("Authorization", "Bearer " ++ ex.auth_token.getD "")]
  else if ex.auth_type == "basic" && tokenSet ex.auth_token then
    headers ++ [("Authorization", "Basic " ++ ex.auth_token.getD "")]
  else
    headers

/-- `Executor.__aenter__`: creates the httpx client bound to `base_url`,
`timeout` and the built header set. -/
def Executor.aenter (ex : Executor) : Executor :=
  { ex with client := some {
      base_url := ex.base_url
      timeout := ex.timeout
      headers := ex.build_headers
      closed := false
      closeCount := 0 } }

/-- `AsyncClient.aclose`: marks the client closed and counts the call. -/
def Client.aclose (cl : Client) : Client :=
  { cl with closed := true, closeCount := cl.closeCount + 1 }

/-- `Executor.__aexit__`: `if self._client: await self._client.aclose()`.
Note it does not reset `self._client` to `None`. -/
def Executor.aexit (ex : Executor) : Executor :=
  match ex.client with
  | none => ex
  | some cl => { ex with client := some cl.aclose }

/-- The message of the `RuntimeError` raised by the `if not self._client`
guard at the top of `execute_attack`. -/
def guardErrMsg : String := "Executor context not initialized. Use 'async with' block."

/-- The message of the `RuntimeError` httpx raises when a request is
attempted on a client that has been closed by `aclose`. -/
def closedErrMsg : String := "Cannot send a request, as the client has been closed."

/-- The `kwargs` construction inside the `try` block: per-request headers
only when truthy; a non-`None` payload goes to `json` for (upper-cased)
POST/PUT/PATCH and to `params` otherwise. -/
def buildKwargs (method : String) (payload : Option Payload)
    (headers : Option Headers) : RequestKwargs :=
  let kwargs : RequestKwargs := {}
  let kwargs := if headersTruthy headers then { kwargs with headers := headers } else kwargs
  match payload with
  | none => kwargs
  | some p =>
    if ["POST", "PUT", "PATCH"].contains (pyUpper method) then
      { kwargs with json := some p }
    else
      { kwargs with params := some p }

/-- The `for attempt in range(max_retries + 1)` loop of `execute_attack`,
recursing over the list of remaining attempt indices. On a response it
returns the success dict; on a `RequestError` at the last allowed attempt
it returns the failure dict; otherwise it sleeps the fixed 0.5 s backoff
and retries. A closed client raises before any network I/O. -/
def runAttempts (cl : Client) (net : Nat → NetOutcome) (method url : String)
    (kwargs : RequestKwargs) (max_retries : Nat) :
    List Nat → ExecOutcome × List Event
  | [] => (.ok none, [])
  | attempt :: rest =>
    if cl.closed then
      (.raised closedErrMsg, [])
    else
      match net attempt with
      | .response status body hdrs rurl el =>
        (.ok (some { status_code := status, response_body := body,
                     elapsed_ms := el, headers := some hdrs, url := rurl,
                     error := none }),
         [.request attempt method url kwargs])
      | .netError msg el =>
        if attempt == max_retries then
          (.ok (some { status_code := 0, response_body := "",
                       elapsed_ms := el, headers := none, url := url,
                       error := some msg }),
           [.request attempt method url kwargs])
        else
          let next := runAttempts cl net method url kwargs max_retries rest
          (next.1, .request attempt method url kwargs :: .sleep (1/2) :: next.2)

/-- `Executor.execute_attack`: the uninitialized-client guard, then the
leading-slash strip of `path`, the single rate-limit sleep (applied once,
before the loop, when `rate_limit > 0`), and the retry loop over
`range(max_retries + 1)` with `max_retries = 2`. -/
def Executor.execute_attack (ex : Executor) (net : Nat → NetOutcome)
    (method path : String) (payload : Option Payload)
    (headers : Option Headers) : ExecOutcome × List Event :=
  match ex.client with
  | none => (.raised guardErrMsg, [])
  | some cl =>
    let url := pyLstripSlash path
    let max_retries := 2
    let rateEvs : List Event :=
      if ex.rate_limit > 0 then [.sleep (1 / (ex.rate_limit : ℚ))] else []
    let kwargs := buildKwargs method payload headers
    let res := runAttempts cl net method url kwargs max_retries
      (List.range (max_retries + 1))
    (res.1, rateEvs ++ res.2)

/-- Whether an event is a dispatched request. -/
def Event.isRequest : Event → Bool
  | .request .. => true
  | .sleep _ => false

/-- Number of requests actually dispatched to the network in a trace. -/
def countRequests (evs : List Event) : Nat :=
  (evs.filter Event.isRequest).length

/-- Number of sleep events of exactly `q` seconds in a trace. -/
def countSleeps (q : ℚ) (evs : List Event) : Nat :=
  (evs.filter (fun e => e == Event.sleep q)).length

/-- Whether an attempt outcome is an HTTP response. -/
def NetOutcome.isResponse : NetOutcome → Bool
  | .response .. => true
  | .netError .. => false

/-- The per-attempt elapsed milliseconds of an attempt outcome. -/
def NetOutcome.elapsed : NetOutcome → Nat
  | .response _ _ _ _ e => e
  | .netError _ e => e

/-- Index of the attempt whose outcome `execute_attack` returns: the first
attempt that obtains a response, or the last allowed attempt (index 2)
when all three fail. -/
def finalAttempt (net : Nat → NetOutcome) : Nat :=
  (([0, 1, 2].find? fun i => (net i).isResponse).getD 2)

/-- A network environment is status-valid when every HTTP response it
produces has a nonzero status code (real HTTP statuses are ≥ 100; `0` is
the executor's reserved no-response marker). -/
def validNet (net : Nat → NetOutcome) : Prop :=
  ∀ i s b hd u e, net i = .response s b hd u e → s ≠ 0

/-- Well-formedness of what `execute_attack` hands back to its caller: a
returned result dict (not a raised exception, not an implicit `None`). -/
def isWellFormed : ExecOutcome → Bool
  | .ok (some _) => true
  | _ => false

/-! ### Concrete fixtures used by counterexamples and witnesses -/

def exDemo : Executor := (Executor.make "http://target" "none" none 10 30).aenter

def exDemo5 : Executor := (Executor.make "http://target" "none" none 5 30).aenter

def netRefused : Nat → NetOutcome := fun _ => .netError "Connection refused" 7

def net500 : Nat → NetOutcome :=
  fun _ => .response 500 "Server Error" [("content-type", "text/plain")]
    "http://target/items" 12

def netMix : Nat → NetOutcome :=
  fun i => if i = 0 then .netError "refused" 3
    else .response 200 "ok" [("h", "v")] "http://target/items" 11

def rMix : AttackResult :=
  ⟨200, "ok", 11, some [("h", "v")], "http://target/items", none⟩

/-! ### Helper lemmas shared by several claim theorems -/

theorem runAttempts_sleep_mem (cl : Client) (net : Nat → NetOutcome)
    (m url : String) (kw : RequestKwargs) (mr : Nat) (L : List Nat) (q : ℚ)
    (hq : Event.sleep q ∈ (runAttempts cl net m url kw mr L).2) : q = 1/2 := by
  induction L with
  | nil => simp [runAttempts] at hq
  | cons a rest ih =>
    by_cases hcl : cl.closed
    · simp [runAttempts, hcl] at hq
    · rcases hnet : net a with ⟨s, b, hd, u, e⟩ | ⟨s, e⟩
      · simp [runAttempts, hcl, hnet] at hq
      · by_cases ha : a == mr
        · simp [runAttempts, hcl, hnet, ha] at hq
        · simp [runAttempts, hcl, hnet, ha] at hq
          rcases hq with hq | hq
          · rw [hq]; norm_num
          · exact ih hq

theorem runAttempts_request_mem (cl : Client) (net : Nat → NetOutcome)
    (m url : String) (kw : RequestKwargs) (mr : Nat) (L : List Nat)
    (a : Nat) (m2 u2 : String) (k : RequestKwargs)
    (hq : Event.request a m2 u2 k ∈ (runAttempts cl net m url kw mr L).2) :
    m2 = m ∧ u2 = url ∧ k = kw := by
  induction L with
  | nil => simp [runAttempts] at hq
  | cons b rest ih =>
    by_cases hcl : cl.closed
    · simp [runAttempts, hcl] at hq
    · rcases hnet : net b with ⟨s, bo, hd, u, e⟩ | ⟨s, e⟩
      · simp [runAttempts, hcl, hnet] at hq
        exact ⟨hq.2.1, hq.2.2.1, hq.2.2.2⟩
      · by_cases hb : b == mr
        · simp [runAttempts, hcl, hnet, hb] at hq
          exact ⟨hq.2.1, hq.2.2.1, hq.2.2.2⟩
        · simp [runAttempts, hcl, hnet, hb] at hq
          rcases hq with hq | hq
          · exact ⟨hq.2.1, hq.2.2.1, hq.2.2.2⟩
          · exact ih hq

theorem execute_attack_open (ex : Executor) (cl : Client)
    (net : Nat → NetOutcome) (m path : String) (pl : Option Payload)
    (h : Option Headers) (hc : ex.client = some cl) :
    ex.execute_attack net m path pl h =
      ((runAttempts cl net m (pyLstripSlash path)
          (buildKwargs m pl h) 2 [0, 1, 2]).1,
       (if ex.rate_limit > 0 then [Event.sleep (1 / (ex.rate_limit : ℚ))] else [])
         ++ (runAttempts cl net m (pyLstripSlash path)
              (buildKwargs m pl h) 2 [0, 1, 2]).2) := by
  unfold Executor.execute_attack
  rw [hc]
  rfl

theorem countRequests_append (xs ys : List Event) :
    countRequests (xs ++ ys) = countRequests xs + countRequests ys := by
  simp [countRequests, List.filter_append]

theorem countRequests_rate (c : Prop) [Decidable c] (q : ℚ) :
    countRequests (if c then [Event.sleep q] else []) = 0 := by
  split <;> simp [countRequests, Event.isRequest]

/-! ### Claim theorems, counterexamples and witnesses -/

/-- C1 counterexample: with `rate_limit = 10` and every attempt failing,
the run dispatches 3 attempts but contains exactly one rate-limit sleep of
`1/10` seconds — strictly fewer rate-limit delays than attempts, so the
delay is not applied before every attempt. -/
theorem rate_delay_count_lt_attempt_count :
    countRequests (exDemo.execute_attack netRefused "GET" "/items" none none).2 = 3
    ∧ countSleeps (1/10 : ℚ)
        (exDemo.execute_attack netRefused "GET" "/items" none none).2 = 1
    ∧ countSleeps (1/10 : ℚ)
          (exDemo.execute_attack netRefused "GET" "/items" none none).2
        < countRequests (exDemo.execute_attack netRefused "GET" "/items" none none).2 := by
  have ht : (exDemo.execute_attack netRefused "GET" "/items" none none).2 =
      [Event.sleep (1/10 : ℚ),
       Event.request 0 "GET" "items" {},
       Event.sleep (1/2 : ℚ),
       Event.request 1 "GET" "items" {},
       Event.sleep (1/2 : ℚ),
       Event.request 2 "GET" "items" {}] := by rfl
  rw [ht]
  refine ⟨rfl, ?_, ?_⟩
  · simp [countSleeps]
  · simp [countSleeps, countRequests, Event.isRequest]

/-- C1 (corrected): in an active scope, when `rate_limit > 0` the trace
begins with the single rate-limit sleep of `1/rate_limit` seconds and every
later sleep is the fixed `0.5` s retry backoff; when `rate_limit ≤ 0`
every sleep in the trace is the `0.5` s backoff (no rate-limit delay). The
rate-limit delay is applied once, before the first attempt only. -/
theorem rate_delay_once_before_first_attempt (ex : Executor) (cl : Client)
    (net : Nat → NetOutcome) (m path : String) (pl : Option Payload)
    (h : Option Headers) (hc : ex.client = some cl) :
    (0 < ex.rate_limit →
      (ex.execute_attack net m path pl h).2.head?
          = some (Event.sleep (1 / (ex.rate_limit : ℚ)))
      ∧ ∀ q : ℚ, Event.sleep q ∈ (ex.execute_attack net m path pl h).2.tail →
          q = 1/2)
    ∧ (ex.rate_limit ≤ 0 →
      ∀ q : ℚ, Event.sleep q ∈ (ex.execute_attack net m path pl h).2 → q = 1/2) := by
  rw [execute_attack_open ex cl net m path pl h hc]
  constructor
  · intro hrl
    rw [if_pos hrl]
    refine ⟨rfl, ?_⟩
    intro q hq
    exact runAttempts_sleep_mem cl net m _ _ 2 [0, 1, 2] q (by simpa using hq)
  · intro hrl
    rw [if_neg (by omega)]
    intro q hq
    exact runAttempts_sleep_mem cl net m _ _ 2 [0, 1, 2] q (by simpa using hq)

/-- Witness for C1's theorem at `rate_limit = 10`: the trace starts with
the `1/10` s sleep. -/
theorem rate_delay_once_before_first_attempt_witness :
    (exDemo.execute_attack netRefused "GET" "/items" none none).2.head?
      = some (Event.sleep (1/10 : ℚ)) :=
  ((rate_delay_once_before_first_attempt exDemo _ netRefused "GET" "/items" none none rfl).1
    (by norm_num : (0 : Int) < 10)).1

/-- C2 counterexample: after scope exit `_client` is retained, so a call
does not fail with the uninitialized-session guard error: it performs the
rate-limit sleep (a non-empty trace) and raises the closed-client error,
whose message differs from the guard's. -/
theorem after_exit_raises_closed_client_error :
    (exDemo.aexit).execute_attack netRefused "GET" "/items" none none
      = (.raised closedErrMsg, [Event.sleep (1/10 : ℚ)])
    ∧ closedErrMsg ≠ guardErrMsg
    ∧ ((exDemo.aexit).execute_attack netRefused "GET" "/items" none none).2 ≠ [] := by
  refine ⟨rfl, by decide, ?_⟩
  rw [show ((exDemo.aexit).execute_attack netRefused "GET" "/items" none none).2
      = [Event.sleep (1/10 : ℚ)] from rfl]
  simp

/-- C2 (corrected): a call before scope entry raises the
uninitialized-session `RuntimeError` with an empty trace (no network I/O,
no delay); a call after the client is closed passes the guard, performs
the rate-limit sleep, dispatches no request, and raises the closed-client
error instead. -/
theorem guard_before_entry_and_after_exit (ex : Executor) (net : Nat → NetOutcome)
    (m path : String) (pl : Option Payload) (h : Option Headers) :
    (ex.client = none →
       ex.execute_attack net m path pl h = (.raised guardErrMsg, []))
    ∧ (∀ cl : Client, ex.client = some cl → cl.closed = true →
       ex.execute_attack net m path pl h =
         (.raised closedErrMsg,
          if ex.rate_limit > 0 then [Event.sleep (1 / (ex.rate_limit : ℚ))] else [])) := by
  constructor
  · intro hnone
    unfold Executor.execute_attack
    rw [hnone]
  · intro cl hc hcl
    rw [execute_attack_open ex cl net m path pl h hc]
    simp [runAttempts, hcl]

/-- Witness for C2's theorem: a freshly constructed executor (scope never
entered) fails with the guard error and an empty trace. -/
theorem guard_before_entry_and_after_exit_witness :
    (Executor.make "http://target" "none" none 10 30).execute_attack
        netRefused "GET" "/items" none none
      = (.raised guardErrMsg, []) :=
  (guard_before_entry_and_after_exit (Executor.make "http://target" "none" none 10 30)
    netRefused "GET" "/items" none none).1 rfl

/-- C3 counterexample: with `rate_limit = 5` and all attempts failing, the
events between consecutive attempts are exactly one `0.5` s backoff sleep;
no `1/5` s rate-limit delay occurs between attempts (the only `1/5` sleep
is before the first attempt), so the backoff is not in addition to a
per-attempt rate-limit delay. -/
theorem gap_between_attempts_is_backoff_only :
    (exDemo5.execute_attack netRefused "GET" "/items" none none).2 =
      [Event.sleep (1/5 : ℚ),
       Event.request 0 "GET" "items" {},
       Event.sleep (1/2 : ℚ),
       Event.request 1 "GET" "items" {},
       Event.sleep (1/2 : ℚ),
       Event.request 2 "GET" "items" {}]
    ∧ countSleeps (1/5 : ℚ)
        ((exDemo5.execute_attack netRefused "GET" "/items" none none).2.drop 2) = 0 := by
  refine ⟨by rfl, ?_⟩
  rw [show (exDemo5.execute_attack netRefused "GET" "/items" none none).2 =
      [Event.sleep (1/5 : ℚ),
       Event.request 0 "GET" "items" {},
       Event.sleep (1/2 : ℚ),
       Event.request 1 "GET" "items" {},
       Event.sleep (1/2 : ℚ),
       Event.request 2 "GET" "items" {}] by rfl]
  simp [countSleeps]

/-- C3 (corrected): when every attempt fails at the network level, exactly
3 attempts are dispatched, consecutive attempts are separated by exactly
the constant `0.5` s backoff (the rate-limit delay occurs only once,
before the first attempt), no backoff follows the final attempt, and the
result has `status_code = 0` with `error` set to the final failure's
description — non-empty whenever that description is non-empty. -/
theorem all_failures_three_attempts_result (ex : Executor) (cl : Client)
    (net : Nat → NetOutcome) (m path : String) (pl : Option Payload)
    (h : Option Headers) (msgf : Nat → String) (elf : Nat → Nat)
    (hc : ex.client = some cl) (ho : cl.closed = false)
    (hfail : ∀ i : Nat, net i = .netError (msgf i) (elf i))
    (hne : msgf 2 ≠ "") :
    ex.execute_attack net m path pl h =
      (.ok (some ⟨0, "", elf 2, none, pyLstripSlash path, some (msgf 2)⟩),
       (if ex.rate_limit > 0 then [Event.sleep (1 / (ex.rate_limit : ℚ))] else [])
         ++ [Event.request 0 m (pyLstripSlash path) (buildKwargs m pl h),
             Event.sleep (1/2),
             Event.request 1 m (pyLstripSlash path) (buildKwargs m pl h),
             Event.sleep (1/2),
             Event.request 2 m (pyLstripSlash path) (buildKwargs m pl h)])
    ∧ countRequests (ex.execute_attack net m path pl h).2 = 3
    ∧ some (msgf 2) ≠ some "" := by
  refine ⟨?_, ?_, by simpa using hne⟩
  · rw [execute_attack_open ex cl net m path pl h hc]
    simp [runAttempts, ho, hfail 0, hfail 1, hfail 2]
  · rw [execute_attack_open ex cl net m path pl h hc]
    rw [countRequests_append, countRequests_rate]
    simp [runAttempts, ho, hfail 0, hfail 1, hfail 2, countRequests, Event.isRequest]

/-- Witness for C3's theorem: the connection-refused run dispatches
exactly 3 requests. -/
theorem all_failures_three_attempts_result_witness :
    countRequests (exDemo.execute_attack netRefused "GET" "/items" none none).2 = 3 :=
  (all_failures_three_attempts_result exDemo _ netRefused "GET" "/items" none none
    (fun _ => "Connection refused") (fun _ => 7) rfl rfl (fun _ => rfl)
    (by decide)).2.1

/-- C4 (confirmed): inside an active scope with an open client, every call
to `execute_attack` returns a well-formed result dict — never an escaped
exception and never Python's implicit `None`; every network-level failure
(`httpx.RequestError`) is converted into the returned result. -/
theorem execute_attack_always_well_formed (ex : Executor) (cl : Client)
    (net : Nat → NetOutcome) (m path : String) (pl : Option Payload)
    (h : Option Headers) (hc : ex.client = some cl) (ho : cl.closed = false) :
    isWellFormed (ex.execute_attack net m path pl h).1 = true := by
  rw [execute_attack_open ex cl net m path pl h hc]
  rcases h0 : net 0 with ⟨s, b, hd, u, e⟩ | ⟨s0, e0⟩
  · simp [runAttempts, ho, h0, isWellFormed]
  · rcases h1 : net 1 with ⟨s, b, hd, u, e⟩ | ⟨s1, e1⟩
    · simp [runAttempts, ho, h0, h1, isWellFormed]
    · rcases h2 : net 2 with ⟨s, b, hd, u, e⟩ | ⟨s2, e2⟩
      · simp [runAttempts, ho, h0, h1, h2, isWellFormed]
      · simp [runAttempts, ho, h0, h1, h2, isWellFormed]

/-- Witness for C4's theorem on the always-failing network. -/
theorem execute_attack_always_well_formed_witness :
    isWellFormed (exDemo.execute_attack netRefused "GET" "/items" none none).1 = true :=
  execute_attack_always_well_formed exDemo _ netRefused "GET" "/items" none none rfl rfl

/-- C5 (confirmed): whenever attempt `j ≤ 2` obtains an HTTP response
(any status code, 4xx/5xx included) after `j` network-level failures, the
call returns that attempt's real `status_code`, body, per-attempt
`elapsed_ms`, response headers and resolved url, having dispatched exactly
`j + 1` requests — no retry is ever triggered by an HTTP-level status. -/
theorem response_returns_immediately (ex : Executor) (cl : Client)
    (net : Nat → NetOutcome) (m path : String) (pl : Option Payload)
    (h : Option Headers) (j s : Nat) (b : String) (hd : Headers) (u : String)
    (e : Nat) (hc : ex.client = some cl) (ho : cl.closed = false) (hj : j ≤ 2)
    (hprev : ∀ i, i < j → (net i).isResponse = false)
    (hresp : net j = .response s b hd u e) :
    (ex.execute_attack net m path pl h).1 = .ok (some ⟨s, b, e, some hd, u, none⟩)
    ∧ countRequests (ex.execute_attack net m path pl h).2 = j + 1 := by
  rw [execute_attack_open ex cl net m path pl h hc]
  interval_cases j
  · constructor
    · simp [runAttempts, ho, hresp]
    · rw [countRequests_append, countRequests_rate]
      simp [runAttempts, ho, hresp, countRequests, Event.isRequest]
  · have h0 := hprev 0 (by norm_num)
    rcases hn0 : net 0 with ⟨s0, b0, hd0, u0, e0⟩ | ⟨m0, e0⟩
    · rw [hn0] at h0; simp [NetOutcome.isResponse] at h0
    · constructor
      · simp [runAttempts, ho, hn0, hresp]
      · rw [countRequests_append, countRequests_rate]
        simp [runAttempts, ho, hn0, hresp, countRequests, Event.isRequest]
  · have h0 := hprev 0 (by norm_num)
    have h1 := hprev 1 (by norm_num)
    rcases hn0 : net 0 with ⟨s0, b0, hd0, u0, e0⟩ | ⟨m0, e0⟩
    · rw [hn0] at h0; simp [NetOutcome.isResponse] at h0
    · rcases hn1 : net 1 with ⟨s1, b1, hd1, u1, e1⟩ | ⟨m1, e1⟩
      · rw [hn1] at h1; simp [NetOutcome.isResponse] at h1
      · constructor
        · simp [runAttempts, ho, hn0, hn1, hresp]
        · rw [countRequests_append, countRequests_rate]
          simp [runAttempts, ho, hn0, hn1, hresp, countRequests, Event.isRequest]

/-- Witness for C5's theorem: an always-HTTP-500 target returns on the
first attempt with `status_code = 500` and exactly one dispatched
request. -/
theorem response_returns_immediately_witness :
    (exDemo.execute_attack net500 "GET" "/items" none none).1
      = .ok (some ⟨500, "Server Error", 12, some [("content-type", "text/plain")],
          "http://target/items", none⟩)
    ∧ countRequests (exDemo.execute_attack net500 "GET" "/items" none none).2 = 1 :=
  response_returns_immediately exDemo _ net500 "GET" "/items" none none 0 500 "Server Error"
    [("content-type", "text/plain")] "http://target/items" 12 rfl rfl
    (by norm_num) (fun i hi => absurd hi (Nat.not_lt_zero i)) rfl

/-- C6 (confirmed): `_build_headers` is a pure function of the config; it
always contains the fixed `User-Agent`; for `auth_type` bearer/oauth with a
non-empty token it contains `Authorization: Bearer <token>`; for basic with
a non-empty token it contains `Authorization: Basic <token>` with the token
verbatim (no base64); for `auth_type` "none", or an absent or empty token,
no `Authorization` header is present. -/
theorem build_headers_auth (ex : Executor) :
    ("User-Agent", "ChaosKitten/0.1.0") ∈ ex.build_headers
    ∧ (∀ t : String, (ex.auth_type = "bearer" ∨ ex.auth_type = "oauth") →
        ex.auth_token = some t → t ≠ "" →
        ("Authorization", "Bearer " ++ t) ∈ ex.build_headers)
    ∧ (∀ t : String, ex.auth_type = "basic" → ex.auth_token = some t → t ≠ "" →
        ("Authorization", "Basic " ++ t) ∈ ex.build_headers)
    ∧ ((ex.auth_type = "none" ∨ ex.auth_token = none ∨ ex.auth_token = some "") →
        ∀ v : String, ("Authorization", v) ∉ ex.build_headers) := by
  refine ⟨?_, ?_, ?_, ?_⟩
  · unfold Executor.build_headers
    split
    · simp
    · split <;> simp
  · intro t hty htok hne
    have hcond : ((ex.auth_type == "bearer" || ex.auth_type == "oauth")
        && tokenSet ex.auth_token) = true := by
      rcases hty with h | h <;> simp [h, tokenSet, htok, hne]
    unfold Executor.build_headers
    rw [hcond]
    simp [htok]
  · intro t hty htok hne
    have h1 : (ex.auth_type == "bearer" || ex.auth_type == "oauth") = false := by
      simp [hty]
    have h2 : ((ex.auth_type == "basic") && tokenSet ex.auth_token) = true := by
      simp [hty, tokenSet, htok, hne]
    unfold Executor.build_headers
    rw [h1, h2]
    simp [htok]
  · intro hcase v
    rcases hcase with h | h | h
    · simp [Executor.build_headers, h]
    · simp [Executor.build_headers, h, tokenSet]
    · simp [Executor.build_headers, h, tokenSet]

/-- Witness for C6's theorem in the bearer case. -/
theorem build_headers_auth_witness :
    ("Authorization", "Bearer sekrit")
      ∈ (Executor.make "http://target" "bearer" (some "sekrit") 10 30).build_headers :=
  (build_headers_auth (Executor.make "http://target" "bearer" (some "sekrit") 10 30)).2.1
    "sekrit" (Or.inl rfl) rfl (by decide)

/-- C7 (confirmed): with a non-null payload, if the upper-cased method is
POST, PUT or PATCH the payload goes to the structured `json` body and not
to `params`; for any other method it goes to the `params` query parameters
and not to the body; a null payload sets neither. Every request the call
dispatches carries exactly these kwargs. -/
theorem payload_placement (m : String) (p : Payload) (h : Option Headers) :
    ((pyUpper m = "POST" ∨ pyUpper m = "PUT" ∨ pyUpper m = "PATCH") →
       (buildKwargs m (some p) h).json = some p
       ∧ (buildKwargs m (some p) h).params = none)
    ∧ (¬(pyUpper m = "POST" ∨ pyUpper m = "PUT" ∨ pyUpper m = "PATCH") →
       (buildKwargs m (some p) h).params = some p
       ∧ (buildKwargs m (some p) h).json = none)
    ∧ (buildKwargs m none h).json = none
    ∧ (buildKwargs m none h).params = none
    ∧ ∀ (ex : Executor) (cl : Client) (net : Nat → NetOutcome) (path : String)
        (pl : Option Payload) (a : Nat) (m2 u2 : String) (k : RequestKwargs),
        ex.client = some cl →
        Event.request a m2 u2 k ∈ (ex.execute_attack net m path pl h).2 →
        k = buildKwargs m pl h := by
  refine ⟨?_, ?_, ?_, ?_, ?_⟩
  · intro hm
    rcases hm with hh | hh | hh <;>
      exact ⟨by simp [buildKwargs, hh], by simp [buildKwargs, hh]; split <;> rfl⟩
  · intro hm
    refine ⟨?_, ?_⟩
    · simp [buildKwargs, hm]
    · simp [buildKwargs, hm]
      split <;> rfl
  · simp only [buildKwargs]; split <;> rfl
  · simp only [buildKwargs]; split <;> rfl
  · intro ex cl net path pl a m2 u2 k hc hmem
    simp only [execute_attack_open ex cl net m path pl h hc, List.mem_append] at hmem
    rcases hmem with hmem | hmem
    · split at hmem <;> simp at hmem
    · exact (runAttempts_request_mem cl net m (pyLstripSlash path)
        (buildKwargs m pl h) 2 [0, 1, 2] a m2 u2 k hmem).2.2

/-- Witness for C7's theorem with method "post" (case-insensitive). -/
theorem payload_placement_witness :
    (buildKwargs "post" (some [("k", "v")]) none).json = some [("k", "v")]
    ∧ (buildKwargs "post" (some [("k", "v")]) none).params = none :=
  (payload_placement "post" [("k", "v")] none).1 (Or.inl rfl)

/-- C8 (confirmed): for any result a call in an active scope returns under
a status-valid network (no response carries the reserved status 0), the
`error` field is present iff `status_code = 0`; response `headers` are
present iff an HTTP response was obtained; on failure the body is empty
and the url is the leading-slash-stripped path; and `elapsed_ms` is the
per-attempt duration of the final (returned) attempt — each attempt's
duration is measured from the fresh timestamp taken at its start, so no
accumulation across retries is possible. -/
theorem result_invariants (ex : Executor) (cl : Client)
    (net : Nat → NetOutcome) (m path : String) (pl : Option Payload)
    (h : Option Headers) (r : AttackResult) (hc : ex.client = some cl)
    (ho : cl.closed = false) (hv : validNet net)
    (hr : (ex.execute_attack net m path pl h).1 = .ok (some r)) :
    (r.error.isSome ↔ r.status_code = 0)
    ∧ (r.headers.isSome ↔ r.status_code ≠ 0)
    ∧ (r.status_code = 0 →
        r.response_body = "" ∧ r.url = pyLstripSlash path)
    ∧ r.elapsed_ms = (net (finalAttempt net)).elapsed := by
  rw [execute_attack_open ex cl net m path pl h hc] at hr
  rcases h0 : net 0 with ⟨s, b, hd, u, e⟩ | ⟨s0, e0⟩
  · rw [show (runAttempts cl net m (pyLstripSlash path)
        (buildKwargs m pl h) 2 [0, 1, 2]).1
        = .ok (some ⟨s, b, e, some hd, u, none⟩) by
      simp [runAttempts, ho, h0]] at hr
    simp only [PyResult.ok.injEq, Option.some.injEq] at hr
    subst hr
    refine ⟨?_, ?_, ?_, ?_⟩
    · simpa using fun hs => (hv 0 s b hd u e h0 hs).elim
    · simpa using hv 0 s b hd u e h0
    · intro hs; exact absurd hs (hv 0 s b hd u e h0)
    · simp [finalAttempt, h0, NetOutcome.isResponse, NetOutcome.elapsed]
  · rcases h1 : net 1 with ⟨s, b, hd, u, e⟩ | ⟨s1, e1⟩
    · rw [show (runAttempts cl net m (pyLstripSlash path)
          (buildKwargs m pl h) 2 [0, 1, 2]).1
          = .ok (some ⟨s, b, e, some hd, u, none⟩) by
        simp [runAttempts, ho, h0, h1]] at hr
      simp only [PyResult.ok.injEq, Option.some.injEq] at hr
      subst hr
      refine ⟨?_, ?_, ?_, ?_⟩
      · simpa using fun hs => (hv 1 s b hd u e h1 hs).elim
      · simpa using hv 1 s b hd u e h1
      · intro hs; exact absurd hs (hv 1 s b hd u e h1)
      · simp [finalAttempt, h0, h1, NetOutcome.isResponse, NetOutcome.elapsed]
    · rcases h2 : net 2 with ⟨s, b, hd, u, e⟩ | ⟨s2, e2⟩
      · rw [show (runAttempts cl net m (pyLstripSlash path)
            (buildKwargs m pl h) 2 [0, 1, 2]).1
            = .ok (some ⟨s, b, e, some hd, u, none⟩) by
          simp [runAttempts, ho, h0, h1, h2]] at hr
        simp only [PyResult.ok.injEq, Option.some.injEq] at hr
        subst hr
        refine ⟨?_, ?_, ?_, ?_⟩
        · simpa using fun hs => (hv 2 s b hd u e h2 hs).elim
        · simpa using hv 2 s b hd u e h2
        · intro hs; exact absurd hs (hv 2 s b hd u e h2)
        · simp [finalAttempt, h0, h1, h2, NetOutcome.isResponse, NetOutcome.elapsed]
      · rw [show (runAttempts cl net m (pyLstripSlash path)
            (buildKwargs m pl h) 2 [0, 1, 2]).1
            = .ok (some ⟨0, "", e2, none, pyLstripSlash path, some s2⟩) by
          simp [runAttempts, ho, h0, h1, h2]] at hr
        simp only [PyResult.ok.injEq, Option.some.injEq] at hr
        subst hr
        refine ⟨by simp, by simp, fun _ => ⟨rfl, rfl⟩, ?_⟩
        · simp [finalAttempt, h0, h1, h2, NetOutcome.isResponse, NetOutcome.elapsed]

/-- Witness for C8's theorem on a network failing once and then answering
HTTP 200: the returned record satisfies every invariant, with
`elapsed_ms` equal to the second (returned) attempt's duration. -/
theorem result_invariants_witness :
    (rMix.error.isSome ↔ rMix.status_code = 0)
    ∧ (rMix.headers.isSome ↔ rMix.status_code ≠ 0)
    ∧ (rMix.status_code = 0 →
        rMix.response_body = "" ∧ rMix.url = pyLstripSlash "/items")
    ∧ rMix.elapsed_ms = (netMix (finalAttempt netMix)).elapsed :=
  result_invariants exDemo _ netMix "GET" "/items" none none rMix rfl rfl
    (by
      intro i s b hd u e h
      by_cases hi : i = 0
      · simp [netMix, hi] at h
      · simp [netMix, hi] at h
        omega)
    rfl

/-- C9 (confirmed): entering the scope creates a fresh open session
(`closed = false`, zero `aclose` calls) and scope exit closes it exactly
once. `execute_attack` never reassigns `_client` (in the model it reads the
client without producing a new executor state), so the same holds on every
exit path, whatever the intervening calls returned or raised. -/
theorem scope_exit_closes_once (ex : Executor) :
    ∃ cl : Client,
      ex.aenter.client = some cl ∧ cl.closed = false ∧ cl.closeCount = 0
      ∧ ex.aenter.aexit.client = some cl.aclose
      ∧ cl.aclose.closed = true ∧ cl.aclose.closeCount = 1 :=
  ⟨_, rfl, rfl, rfl, rfl, rfl, rfl⟩

/-- C10 (confirmed): passing an empty per-request headers mapping is
identical to passing no headers argument: `if headers:` treats the empty
dict as falsy, so the two calls build the same kwargs, dispatch the same
requests and return the same result and trace. -/
theorem empty_headers_like_absent (ex : Executor) (net : Nat → NetOutcome)
    (m path : String) (pl : Option Payload) :
    ex.execute_attack net m path pl (some []) =
      ex.execute_attack net m path pl none := rfl
